import Mathlib

namespace BrowserBridge

/- Shallow embedding of the task lifecycle and concurrency manager of
   browser-use-local-bridge, translated from src/models/task.py,
   src/core/storage.py and src/core/tasks.py.

   Conventions of the embedding:
   - datetime.utcnow() is modelled by an explicit Nat timestamp passed to
     every mutating operation;
   - Python dicts that preserve insertion order are modelled as association
     lists (List (String × _));
   - raised HTTPExceptions are modelled by the ApiErr sum; an operation on
     the manager returns the (possibly updated) manager state together with
     Except ApiErr Task, matching the fact that a raise leaves the state
     exactly as it was at the raise point;
   - uuid4 step ids and other fields irrelevant to the verified claims
     (screenshots, media, metadata, memory metrics) are elided. -/

/-- TaskStatus enum of src/models/task.py lines 7-14. -/
inductive TaskStatus
  | CREATED
  | RUNNING
  | FINISHED
  | STOPPED
  | PAUSED
  | FAILED
  | STOPPING
deriving DecidableEq, Repr

/-- TaskStep of src/models/task.py lines 16-25 (step_id, timestamp,
screenshot_path and metadata elided). -/
structure TaskStep where
  action : String
  description : String
  status : String := "completed"
  error : Option String := none
deriving DecidableEq, Repr

/-- Python values that can appear in Task.result (Optional[Any]); used by
the structured-output processing of C9.  json.loads of the Python standard
library returns values of this shape. -/
inductive JsonVal
  | null
  | bool (b : Bool)
  | num (n : Int)
  | str (s : String)
  | arr (xs : List JsonVal)
  | obj (fields : List (String × JsonVal))

/-- AgentConfig of src/models/task.py lines 243-287, restricted to the
fields the verified claims read.  sensitive_data is the domain-scoped
secret mapping (pattern -> placeholder -> value). -/
structure AgentConfig where
  sensitive_data : List (String × List (String × String)) := []
deriving DecidableEq, Repr

/-- BrowserProfile of src/models/task.py lines 36-120, restricted to the
allowed_domains field read by the sensitive-data validation. -/
structure BrowserProfileCfg where
  allowed_domains : Option (List String) := none
deriving DecidableEq, Repr

/-- Task of src/models/task.py lines 289-333, restricted to the fields the
verified claims read or mutate. -/
structure Task where
  id : String
  user_id : String
  task : String := ""
  status : TaskStatus := TaskStatus.CREATED
  result : Option JsonVal := none
  error : Option String := none
  started_at : Option Nat := none
  finished_at : Option Nat := none
  updated_at : Nat := 0
  steps : List TaskStep := []
  browser_profile : BrowserProfileCfg := {}
  agent_config : AgentConfig := {}
  execution_time_seconds : Option Int := none
  can_pause : Bool := true
  can_stop : Bool := true

/-- Task.add_step of src/models/task.py lines 335-345: appends a step
(steps are append-only) and refreshes updated_at. -/
def Task.add_step (t : Task) (action description : String) (error : Option String) (now : Nat) : Task :=
  let step : TaskStep := { action := action, description := description, error := error }
  { t with steps := t.steps ++ [step], updated_at := now }

/-- Task.set_status of src/models/task.py lines 365-375, statement for
statement: status and updated_at are always written; started_at is set only
when entering RUNNING with started_at still unset; finished_at is written
on EVERY entry to a terminal status (FINISHED, FAILED, STOPPED), with
execution_time_seconds recomputed when started_at is set.  Note the
asymmetry with started_at: there is no first-entry guard on finished_at. -/
def Task.set_status (t : Task) (s : TaskStatus) (now : Nat) : Task :=
  let t := { t with status := s, updated_at := now }
  if s = TaskStatus.RUNNING ∧ t.started_at = none then
    { t with started_at := some now }
  else if s = TaskStatus.FINISHED ∨ s = TaskStatus.FAILED ∨ s = TaskStatus.STOPPED then
    let t := { t with finished_at := some now }
    match t.started_at with
    | some st => { t with execution_time_seconds := some ((now : Int) - (st : Int)) }
    | none => t
  else
    t

/-- Task.is_active of src/models/task.py lines 384-386. -/
def Task.is_active (t : Task) : Bool :=
  t.status = TaskStatus.RUNNING ∨ t.status = TaskStatus.STOPPING

/-- Association-list lookup, the model of Python dict.get. -/
def lookupA {α : Type} (xs : List (String × α)) (k : String) : Option α :=
  (xs.find? (fun p => p.1 == k)).map (fun p => p.2)

/-- Association-list insert-or-replace, the model of Python dict assignment
(insertion order preserved, existing key overwritten in place). -/
def setA {α : Type} (xs : List (String × α)) (k : String) (v : α) : List (String × α) :=
  if xs.any (fun p => p.1 == k) then
    xs.map (fun p => if p.1 == k then (k, v) else p)
  else
    xs ++ [(k, v)]

/-- Association-list removal, the model of Python dict.pop(key, None). -/
def removeA {α : Type} (xs : List (String × α)) (k : String) : List (String × α) :=
  xs.filter (fun p => ¬ p.1 == k)

/-- Errors raised by the TaskManager surface (HTTPException in the source):
notFound is 404, invalidTransition the 400 raised on a status that does not
permit the operation, notAllowed the 400 raised by pause when can_pause is
false, resourceExhausted the 429 of admission control. -/
inductive ApiErr
  | notFound
  | invalidTransition
  | notAllowed
  | resourceExhausted
deriving DecidableEq, Repr

/-- State owned by TaskManager (src/core/tasks.py lines 31-38) together
with the TaskStorage it wraps (src/core/storage.py lines 6-25):
- storage: per-user map of task id to Task (defaultdict(dict));
- active_tasks: the in-flight set, task id mapped to the done() flag of its
  asyncio.Task (false = still running);
- browser_sessions: task id mapped to the stored session reference; the
  stored value itself may be None (line 279 stores
  agent_kwargs.get("browser_session")), hence Option Nat;
- task_agents: task id mapped to the Agent handle;
- closed_sessions: ghost event log of the engine sessions that have been
  closed (browser_session.close() calls), used to observe cleanup;
- max_concurrent_tasks: the admission ceiling (settings.MAX_CONCURRENT_TASKS). -/
structure ManagerState where
  storage : List (String × List (String × Task)) := []
  active_tasks : List (String × Bool) := []
  browser_sessions : List (String × Option Nat) := []
  task_agents : List (String × Nat) := []
  closed_sessions : List Nat := []
  max_concurrent_tasks : Nat := 5

/-- TaskStorage.get_task of src/core/storage.py lines 13-14. -/
def get_task (st : ManagerState) (user_id task_id : String) : Option Task :=
  match lookupA st.storage user_id with
  | none => none
  | some uts => lookupA uts task_id

/-- Write a task back into storage (the source mutates the Task object in
place; the storage dict keeps pointing at it). -/
def put_task (st : ManagerState) (user_id : String) (t : Task) : ManagerState :=
  { st with storage := setA st.storage user_id (setA ((lookupA st.storage user_id).getD []) t.id t) }

/-- In-flight count of src/core/tasks.py line 88: the units whose asyncio
task is not done, counted across ALL owners (active_tasks is keyed by task
id only, never by user). -/
def active_count (st : ManagerState) : Nat :=
  (st.active_tasks.filter (fun p => ¬ p.2)).length

/-- TaskManager._cleanup_task_resources of src/core/tasks.py lines
1006-1024: closes the browser session and drops its registry entry ONLY
when a session argument was passed (the `if browser_session:` guard);
drops the agent registry entry only when an agent argument was passed;
always removes the task from active_tasks.  Session closes are recorded in
the closed_sessions event log. -/
def cleanup_task_resources (st : ManagerState) (task_id : String)
    (browser_session : Option Nat) (agent : Option Nat) : ManagerState :=
  let st :=
    match browser_session with
    | some s =>
      { st with closed_sessions := st.closed_sessions ++ [s],
                browser_sessions := removeA st.browser_sessions task_id }
    | none => st
  let st :=
    match agent with
    | some _ => { st with task_agents := removeA st.task_agents task_id }
    | none => st
  { st with active_tasks := removeA st.active_tasks task_id }

/-- TaskManager.start_task of src/core/tasks.py lines 77-109: 404 when the
task does not exist, 400 unless status is CREATED, 429 when the global
in-flight count has reached the ceiling; otherwise the execution unit is
registered in active_tasks, the task is set RUNNING and a started Step is
appended.  Every raise happens before any mutation. -/
def start_task (st : ManagerState) (user_id task_id : String) (now : Nat) :
    ManagerState × Except ApiErr Task :=
  match get_task st user_id task_id with
  | none => (st, Except.error ApiErr.notFound)
  | some task =>
    if task.status ≠ TaskStatus.CREATED then
      (st, Except.error ApiErr.invalidTransition)
    else if st.max_concurrent_tasks ≤ active_count st then
      (st, Except.error ApiErr.resourceExhausted)
    else
      let st := { st with active_tasks := setA st.active_tasks task_id false }
      let task := task.set_status TaskStatus.RUNNING now
      let task := task.add_step "started" "Task execution started" none now
      (put_task st user_id task, Except.ok task)

/-- TaskManager.stop_task of src/core/tasks.py lines 1026-1060: 404 when
missing, 400 unless the task is active (RUNNING or STOPPING); then the unit
is cancelled, the task set STOPPING with a stopping Step, cleanup runs with
the STORED session and agent references, and the task is set STOPPED with a
stopped Step.  (The .cancel() call itself only requests cooperative
cancellation and changes none of the modelled state.) -/
def stop_task (st : ManagerState) (user_id task_id : String) (now : Nat) :
    ManagerState × Except ApiErr Task :=
  match get_task st user_id task_id with
  | none => (st, Except.error ApiErr.notFound)
  | some task =>
    if ¬ task.is_active then
      (st, Except.error ApiErr.invalidTransition)
    else
      let task := task.set_status TaskStatus.STOPPING now
      let task := task.add_step "stopping" "Task stop requested" none now
      let st := put_task st user_id task
      let bs := (lookupA st.browser_sessions task_id).getD none
      let ag := lookupA st.task_agents task_id
      let st := cleanup_task_resources st task_id bs ag
      let task := task.set_status TaskStatus.STOPPED now
      let task := task.add_step "stopped" "Task stopped successfully" none now
      (put_task st user_id task, Except.ok task)

/-- TaskManager.pause_task of src/core/tasks.py lines 1062-1087: 404 when
missing, 400 unless status is RUNNING, 400 when can_pause is false;
otherwise sets PAUSED and appends a paused Step (status-only pause). -/
def pause_task (st : ManagerState) (user_id task_id : String) (now : Nat) :
    ManagerState × Except ApiErr Task :=
  match get_task st user_id task_id with
  | none => (st, Except.error ApiErr.notFound)
  | some task =>
    if task.status ≠ TaskStatus.RUNNING then
      (st, Except.error ApiErr.invalidTransition)
    else if ¬ task.can_pause then
      (st, Except.error ApiErr.notAllowed)
    else
      let task := task.set_status TaskStatus.PAUSED now
      let task := task.add_step "paused" "Task paused" none now
      (put_task st user_id task, Except.ok task)

/-- TaskManager.resume_task of src/core/tasks.py lines 1089-1111, as
written in the source: the status check (line 1096), the transition to
RUNNING (line 1100) and the resumed Step (line 1101) are indented INSIDE
the `if not task:` branch, after the `raise HTTPException(404)` of line
1094, so they are unreachable dead code.  For an existing task the
function therefore falls through to `return task` (line 1105) without
checking the status, without transitioning and without appending a Step. -/
def resume_task (st : ManagerState) (user_id task_id : String) (_now : Nat) :
    ManagerState × Except ApiErr Task :=
  match get_task st user_id task_id with
  | none => (st, Except.error ApiErr.notFound)
  | some task => (st, Except.ok task)

/-- The ways a run of _execute_task can terminate (src/core/tasks.py lines
111-421): normal completion (line 379), LLM construction failure (line
139), agent construction failure (line 287), timeout (line 389), a generic
run error (lines 395 and 411), or cooperative cancellation after
stop_task cancels the unit.  Whatever the branch, control reaches the same
`finally` block of line 419. -/
inductive RunOutcome
  | success
  | llmFailure
  | agentFailure
  | timeout
  | runError
  | cancelled
deriving DecidableEq, Repr

/-- The `finally` block of _execute_task (src/core/tasks.py lines
419-421): it runs once for every RunOutcome and invokes
_cleanup_task_resources with the LITERAL None as the browser-session
argument (`await self._cleanup_task_resources(task_id, None, agent)`), and
with the local agent reference.  The outcome argument records that the
same call is reached from every terminating branch. -/
def execute_task_finalize (_outcome : RunOutcome) (st : ManagerState)
    (task_id : String) (agent : Option Nat) : ManagerState :=
  cleanup_task_resources st task_id none agent

/-- TaskStorage.list_tasks of src/core/storage.py lines 16-20: slices the
insertion-ordered task list of one owner into pages BEFORE any filtering;
user_tasks[start:end] with start = (page-1)*page_size. -/
def storage_list_tasks (user_tasks : List Task) (page page_size : Nat) : List Task :=
  (user_tasks.drop ((page - 1) * page_size)).take page_size

/-- TaskManager.list_tasks of src/core/tasks.py lines 1120-1127: takes the
page slice from storage first, then filters by status. -/
def manager_list_tasks (user_tasks : List Task) (page page_size : Nat)
    (status_filter : Option TaskStatus) : List Task :=
  let tasks := storage_list_tasks user_tasks page page_size
  match status_filter with
  | some f => tasks.filter (fun t => t.status = f)
  | none => tasks

/-- Model of str.startswith over the character list of a Python string. -/
def chars_start_with (s pre : List Char) : Bool :=
  s.take pre.length == pre

/-- Model of str.endswith over the character list of a Python string. -/
def chars_end_with (s post : List Char) : Bool :=
  if post.length ≤ s.length then
    s.drop (s.length - post.length) == post
  else
    false

/-- The remainder of a character list after the first occurrence of sep,
or none when sep does not occur: the model of the Python membership test
`sep in s` combined with s.split(sep, 1)[1]. -/
def after_first (sep : List Char) : List Char → Option (List Char)
  | [] => none
  | c :: rest =>
    if chars_start_with (c :: rest) sep then
      some ((c :: rest).drop sep.length)
    else
      after_first sep rest

/-- Everything after the first "://" of a string, the model of the
protocol stripping of _domain_matches_pattern (src/core/tasks.py lines
730-734: `if "://" in domain: domain = domain.split("://", 1)[1]`); when
"://" does not occur the string is unchanged. -/
def strip_protocol (s : String) : String :=
  match after_first "://".toList s.toList with
  | some rest => String.mk rest
  | none => s

/-- Glob matching over character lists with * and ? wildcards, the model of
fnmatch.fnmatch of the Python standard library as used by
_domain_matches_pattern (character classes are not exercised by any
pattern the repository handles). -/
def glob_match : List Char → List Char → Bool
  | [], [] => true
  | [], _ :: _ => false
  | p :: ps, [] =>
    if p = '*' then glob_match ps [] else false
  | p :: ps, c :: ss =>
    if p = '*' then glob_match ps (c :: ss) || glob_match (p :: ps) ss
    else if p = '?' then glob_match ps ss
    else p = c && glob_match ps ss
termination_by p s => (p.length, s.length)

/-- TaskManager._domain_matches_pattern of src/core/tasks.py lines
726-744: strips protocols, then a pattern of the form *.base matches base
itself and any subdomain of base; other patterns containing * fall back to
fnmatch; plain patterns require equality. -/
def domain_matches_pattern (domain pattern : String) : Bool :=
  let domain := strip_protocol domain
  let pattern := strip_protocol pattern
  if chars_start_with pattern.toList "*.".toList then
    let base_domain := String.mk (pattern.toList.drop 2)
    domain == base_domain || chars_end_with domain.toList ("." ++ base_domain).toList
  else if pattern.toList.any (fun c => c == '*') then
    glob_match pattern.toList domain.toList
  else
    domain == pattern

/-- The uncovered-domain computation of
TaskManager._validate_sensitive_data_domains (src/core/tasks.py lines
697-724): the declared secret domains not matched by any allowed-domain
pattern.  The source logs a warning exactly when this list is nonempty and
otherwise logs an info line; it never raises and never fails the task
(the comment at line 719 reads: do not fail the task, just warn). -/
def uncovered_sensitive_domains (sensitive_data : List (String × List (String × String)))
    (allowed_domains : List String) : List String :=
  (sensitive_data.map (fun p => p.1)).filter
    (fun d => ¬ allowed_domains.any (fun a => domain_matches_pattern d a))

/-- Validation emits a logged warning iff some secret domain is uncovered. -/
def validation_warns (sensitive_data : List (String × List (String × String)))
    (allowed_domains : List String) : Bool :=
  uncovered_sensitive_domains sensitive_data allowed_domains ≠ []

/-- Python exceptions relevant to the agent-creation phase. -/
inductive PyExc
  | unboundLocalError (name : String)
deriving DecidableEq, Repr

/-- The str() rendering of the exception. -/
def PyExc.message : PyExc → String
  | PyExc.unboundLocalError n =>
    "cannot access local variable " ++ n ++ " where it is not associated with a value"

/-- The sensitive-data block of _execute_task (src/core/tasks.py lines
196-203), evaluated with the binding state of the LOCAL variable
browser_profile at that point.  In the source, browser_profile is a local
of _execute_task whose first assignment is at line 218; the block at line
199 reads it (`if browser_profile and browser_profile.allowed_domains:`)
BEFORE that assignment, and reading an unbound Python local raises
UnboundLocalError.  The binding argument is none when the local is unbound
and some bp once it has been assigned bp. -/
def sensitive_data_block (t : Task)
    (browser_profile_binding : Option BrowserProfileCfg) : Except PyExc (List String) :=
  if t.agent_config.sensitive_data ≠ [] then
    match browser_profile_binding with
    | none => Except.error (PyExc.unboundLocalError "browser_profile")
    | some bp =>
      match bp.allowed_domains with
      | some doms =>
        if doms ≠ [] then
          Except.ok (uncovered_sensitive_domains t.agent_config.sensitive_data doms)
        else
          Except.ok []
      | none => Except.ok []
  else
    Except.ok []

/-- The agent-creation phase of _execute_task (the try block of lines
145-292) restricted to the statements bearing on sensitive data, in source
order: when the block of line 197 runs, the local browser_profile is still
unbound (its first assignment, `browser_profile = None`, is line 218), so
the block is evaluated with binding none. -/
def agent_creation_phase (t : Task) : Except PyExc Unit :=
  match sensitive_data_block t none with
  | Except.error e => Except.error e
  | Except.ok _ => Except.ok ()

/-- The except handler of lines 287-292 wrapping the agent-creation phase:
on any exception the task gets an agent_error Step, status FAILED and the
error string, and _execute_task returns (the run never reaches the engine
loop); on success an agent_created Step is appended. -/
def execute_agent_creation (t : Task) (now : Nat) : Task :=
  match agent_creation_phase t with
  | Except.ok _ => t.add_step "agent_created" "Agent created successfully" none now
  | Except.error e =>
    let msg := "Agent creation failed: " ++ e.message
    let t := t.add_step "agent_error" msg (some e.message) now
    let t := t.set_status TaskStatus.FAILED now
    { t with error := some msg }

/-- ActionResult of the browser_use interface as populated by the custom
function wrappers: extracted_content is the content fed back to the
reasoning loop, include_in_memory the retain-in-memory flag. -/
structure ActionResult where
  extracted_content : String
  include_in_memory : Bool
deriving DecidableEq, Repr

/-- The fields of CustomFunction (src/models/task.py lines 179-200) that
the invocation wrappers read. -/
structure CustomFunctionDef where
  name : String := ""
  include_in_memory : Bool := true
deriving DecidableEq, Repr

/-- Outcome of the outbound HTTP POST performed by webhook_function: either
a response with a status code, the optional content field of its JSON body
and its text, or a transport-level exception (connection error, timeout,
bad JSON and so on, all of which surface as a raised exception inside the
try block). -/
inductive HttpOutcome
  | response (status : Nat) (content_field : Option String) (text : String)
  | transportError (msg : String)
deriving DecidableEq, Repr

/-- webhook_function of _register_custom_function (src/core/tasks.py lines
756-800): on HTTP 200 it returns the content field of the body (default
the empty string) with the declared include_in_memory flag; on any other
status it returns the normalized failure result with include_in_memory
false; any exception inside the try is caught at line 795 and converted to
the failure result with include_in_memory false.  The function is total:
no exception ever propagates to the caller. -/
def webhook_function (fd : CustomFunctionDef) (outcome : HttpOutcome) : ActionResult :=
  match outcome with
  | HttpOutcome.response status content_field text =>
    if status = 200 then
      { extracted_content := content_field.getD "", include_in_memory := fd.include_in_memory }
    else
      { extracted_content := "Webhook error: " ++ toString status ++ " - " ++ text,
        include_in_memory := false }
  | HttpOutcome.transportError msg =>
    { extracted_content := "Function execution failed: " ++ msg, include_in_memory := false }

/-- What the compiled body of a code custom action produces when invoked:
either it returns a value (an ActionResult instance, or anything else
rendered through str), or it raises. -/
inductive CodeOutcome
  | returnsAction (r : ActionResult)
  | returnsOther (str_of_value : String)
  | raises (msg : String)
deriving DecidableEq, Repr

/-- code_function of _register_custom_function (src/core/tasks.py lines
810-843): a returned ActionResult is passed through; any other returned
value is wrapped with str() and the declared include_in_memory flag; any
exception raised by the body is caught at line 838 and converted to the
normalized failure result with include_in_memory false.  The function is
total: no exception ever propagates to the caller. -/
def code_function (fd : CustomFunctionDef) (outcome : CodeOutcome) : ActionResult :=
  match outcome with
  | CodeOutcome.returnsAction r => r
  | CodeOutcome.returnsOther s =>
    { extracted_content := s, include_in_memory := fd.include_in_memory }
  | CodeOutcome.raises msg =>
    { extracted_content := "Function execution failed: " ++ msg, include_in_memory := false }

/-- The final_result() value handed back by the engine: in Python this is
Any; the structured-output branch only treats the isinstance(str) case
specially. -/
inductive FinalResult
  | pyStr (s : String)
  | pyOther (v : JsonVal)

/-- The structured-output processing of _execute_task (src/core/tasks.py
lines 315-339), parameterized by the JSON parser (json.loads of the Python
standard library, external to this repository, modelled as any partial
parse function): when the task declares a controller configuration and the
controller was built, a string final result is parsed as JSON; on parse
success the parsed object becomes the task result, on JSONDecodeError the
raw string is stored as-is; a non-string final result and the
no-controller case store the final result unchanged. -/
def process_final_result (json_loads : String → Option JsonVal)
    (has_controller_config controller_present : Bool)
    (final : FinalResult) : FinalResult :=
  if has_controller_config && controller_present then
    match final with
    | FinalResult.pyStr s =>
      match json_loads s with
      | some parsed => FinalResult.pyOther parsed
      | none => FinalResult.pyStr s
    | other => other
  else
    final

/-- Phases of one execution unit around the construction gate of
_execute_task: idle before reaching line 272, constructing while inside
`async with self._agent_creation_semaphore` (the Agent(**agent_kwargs)
call of line 273), running once the gate is released and the engine loop
of line 456 proceeds, done when the unit has terminated. -/
inductive UnitPhase
  | idle
  | constructing
  | running
  | done
deriving DecidableEq, Repr

/-- Global state of the cooperative scheduler for C7: a phase per unit
index and the single system-wide construction gate,
self._agent_creation_semaphore = asyncio.Semaphore(1) of src/core/tasks.py
line 38 (semFree is true iff the semaphore value is 1). -/
structure ConcState where
  units : Nat → UnitPhase
  semFree : Bool

/-- Initial scheduler state: no unit has reached the gate, the semaphore
is free. -/
def conc_init : ConcState :=
  { units := fun _ => UnitPhase.idle, semFree := true }

/-- Interleaving semantics of the construction gate: a unit enters its
construction phase only by acquiring the free semaphore (asyncio.Semaphore
acquire suspends otherwise), leaves it by releasing the semaphore (the end
of the async-with block), and may later finish its run.  Runs of distinct
units may interleave freely. -/
inductive ConcStep : ConcState → ConcState → Prop
  | acquire (s : ConcState) (i : Nat)
      (hu : s.units i = UnitPhase.idle) (hs : s.semFree = true) :
      ConcStep s { units := Function.update s.units i UnitPhase.constructing, semFree := false }
  | release (s : ConcState) (i : Nat)
      (hu : s.units i = UnitPhase.constructing) :
      ConcStep s { units := Function.update s.units i UnitPhase.running, semFree := true }
  | finish (s : ConcState) (i : Nat)
      (hu : s.units i = UnitPhase.running) :
      ConcStep s { units := Function.update s.units i UnitPhase.done, semFree := s.semFree }

/-- Reachability of a scheduler state from the initial state. -/
def ConcReachable (s : ConcState) : Prop :=
  Relation.ReflTransGen ConcStep conc_init s

/-- The inductive invariant of the gate: while the semaphore is free no
unit is constructing, and at most one unit is constructing at any time. -/
def ConcInv (s : ConcState) : Prop :=
  (s.semFree = true → ∀ i, s.units i ≠ UnitPhase.constructing) ∧
  (∀ i j, s.units i = UnitPhase.constructing → s.units j = UnitPhase.constructing → i = j)

/- ===================== concrete fixtures ===================== -/

/-- Fixture: a task in status CREATED. -/
def createdTask : Task :=
  { id := "tc", user_id := "u1", task := "open example.com" }

/-- Fixture: a task in status RUNNING with a running unit. -/
def runningTask : Task :=
  { id := "tr", user_id := "u1", task := "open example.com",
    status := TaskStatus.RUNNING, started_at := some 1, updated_at := 1 }

/-- Fixture: a task already FINISHED. -/
def finishedTask : Task :=
  { id := "tf", user_id := "u1", task := "open example.com",
    status := TaskStatus.FINISHED, started_at := some 1, finished_at := some 2, updated_at := 2 }

/-- Fixture: a task in status PAUSED with its creation Step recorded. -/
def pausedTask : Task :=
  { id := "tp", user_id := "u1", task := "open example.com",
    status := TaskStatus.PAUSED, started_at := some 1, updated_at := 3,
    steps := [{ action := "created", description := "Task created and initialized" }] }

/-- Fixture: manager state holding the four tasks above for owner u1,
with the unit of the running task in flight and its stored session and
agent references. -/
def mixedState : ManagerState :=
  { storage := [("u1", [("tc", createdTask), ("tr", runningTask),
                        ("tf", finishedTask), ("tp", pausedTask)])],
    active_tasks := [("tr", false)],
    browser_sessions := [("tr", some 7)],
    task_agents := [("tr", 1)],
    max_concurrent_tasks := 5 }

/-- Fixture: a task declaring domain-scoped sensitive data whose secret
domain other.com is NOT covered by the allowed pattern *.example.com. -/
def sensitiveTask : Task :=
  { id := "ts", user_id := "u1", task := "log in",
    browser_profile := { allowed_domains := some ["*.example.com"] },
    agent_config := { sensitive_data := [("other.com", [("x_user", "secret")])] } }

/- ===================== helper lemmas ===================== -/

/-- set_status always writes the requested status, whatever branch runs. -/
theorem Task.set_status_status (t : Task) (s : TaskStatus) (now : Nat) :
    (t.set_status s now).status = s := by
  unfold Task.set_status
  dsimp only
  split
  · rfl
  · split
    · split <;> rfl
    · rfl

/-- set_status never touches the Steps list. -/
theorem Task.set_status_steps (t : Task) (s : TaskStatus) (now : Nat) :
    (t.set_status s now).steps = t.steps := by
  unfold Task.set_status
  dsimp only
  split
  · rfl
  · split
    · split <;> rfl
    · rfl

/-- add_step appends exactly one step and preserves the status. -/
theorem Task.add_step_spec (t : Task) (a d : String) (e : Option String) (now : Nat) :
    (t.add_step a d e now).steps = t.steps ++ [{ action := a, description := d, error := e }] ∧
    (t.add_step a d e now).status = t.status :=
  ⟨rfl, rfl⟩

/- ===================== claim theorems ===================== -/

/-- C1: the resume operation, as coded, never performs the specified
transition.  Evaluating resume_task at the failing input, a stored task in
status PAUSED, shows it returns the task unchanged: the state is
untouched, the result is ok (not an error), the status is still PAUSED and
no resumed Step was appended, contradicting the claim that resume sets the
status to RUNNING and appends a resumed Step when the task is PAUSED.  The
transition code exists in the source but is unreachable (dead code inside
the not-found branch of src/core/tasks.py lines 1093-1104). -/
theorem C1_resume_is_noop :
    resume_task mixedState "u1" "tp" 9 = (mixedState, Except.ok pausedTask) ∧
    pausedTask.status = TaskStatus.PAUSED ∧
    pausedTask.steps.map (fun s => s.action) = ["created"] :=
  ⟨rfl, rfl, rfl⟩

/-- C4: evaluation of the four lifecycle operations at out-of-graph
statuses.  start on a RUNNING task, pause on a CREATED task and stop on a
FINISHED task all return InvalidStateTransition and leave the manager
state (hence every status) unchanged, as the claim states; but resume on a
CREATED task returns ok with the task unchanged instead of the
InvalidStateTransition the claim requires, because the status check of
resume_task is unreachable dead code. -/
theorem C4_resume_skips_state_check :
    start_task mixedState "u1" "tr" 9 = (mixedState, Except.error ApiErr.invalidTransition) ∧
    pause_task mixedState "u1" "tc" 9 = (mixedState, Except.error ApiErr.invalidTransition) ∧
    stop_task mixedState "u1" "tf" 9 = (mixedState, Except.error ApiErr.invalidTransition) ∧
    resume_task mixedState "u1" "tc" 9 = (mixedState, Except.ok createdTask) :=
  ⟨rfl, rfl, rfl, rfl⟩

/-- C3: evaluation of the agent-creation phase at the failing input, a
task declaring sensitive data for the uncovered domain other.com with
allowed domains *.example.com.  Because line 199 of src/core/tasks.py
reads the local browser_profile before its first assignment (line 218),
the phase raises UnboundLocalError for EVERY task with nonempty
sensitive_data, the except handler of line 287 marks the task FAILED, and
the run never proceeds — contradicting the claim that the task proceeds
with at most a logged warning.  The last two conjuncts show the intended
validation helper itself is warn-only and matches the spec examples:
other.com is reported uncovered, sub.example.com is covered. -/
theorem C3_sensitive_data_fails_task :
    (execute_agent_creation sensitiveTask 4).status = TaskStatus.FAILED ∧
    (execute_agent_creation sensitiveTask 4).error =
      some ("Agent creation failed: cannot access local variable browser_profile where it is not associated with a value") ∧
    uncovered_sensitive_domains sensitiveTask.agent_config.sensitive_data ["*.example.com"] = ["other.com"] ∧
    uncovered_sensitive_domains [("sub.example.com", [("x_user", "secret")])] ["*.example.com"] = [] ∧
    validation_warns sensitiveTask.agent_config.sensitive_data ["*.example.com"] = true ∧
    validation_warns [("sub.example.com", [("x_user", "secret")])] ["*.example.com"] = false := by
  refine ⟨rfl, rfl, ?_, ?_, ?_, ?_⟩ <;> rfl

/-- C2 counterexample: the claim says the cleanup phase run at the end of
a task closes/releases the engine session.  At the concrete input below
(run of task tr ends with outcome success while a session is stored for
it), the finally block of _execute_task passes the literal None as the
session argument, so cleanup closes nothing (the close-event log stays
empty), the stored session entry survives, and only the removal from the
in-flight set happens. -/
theorem C2_cleanup_does_not_close_session :
    (execute_task_finalize RunOutcome.success mixedState "tr" (some 1)).closed_sessions = [] ∧
    (execute_task_finalize RunOutcome.success mixedState "tr" (some 1)).browser_sessions =
      [("tr", some 7)] ∧
    (execute_task_finalize RunOutcome.success mixedState "tr" (some 1)).active_tasks = [] :=
  ⟨rfl, rfl, rfl⟩

/-- C6 counterexample: the claim says finished_at is never changed after
the first entry to a terminal status.  At the concrete input below, a
RUNNING task set to FAILED at time 5 gets finished_at = 5, and a second
terminal set_status (STOPPED at time 9) overwrites it to 9: set_status has
no first-entry guard on finished_at (src/models/task.py lines 372-375). -/
theorem C6_finished_at_overwritten :
    (runningTask.set_status TaskStatus.FAILED 5).finished_at = some 5 ∧
    ((runningTask.set_status TaskStatus.FAILED 5).set_status TaskStatus.STOPPED 9).finished_at =
      some 9 ∧
    ((runningTask.set_status TaskStatus.FAILED 5).set_status TaskStatus.STOPPED 9).finished_at ≠
      (runningTask.set_status TaskStatus.FAILED 5).finished_at := by
  refine ⟨rfl, rfl, ?_⟩
  have h9 : ((runningTask.set_status TaskStatus.FAILED 5).set_status TaskStatus.STOPPED 9).finished_at = some 9 := rfl
  have h5 : (runningTask.set_status TaskStatus.FAILED 5).finished_at = some 5 := rfl
  rw [h9, h5]
  simp

/-- C2 amended: for every terminating outcome of a run, the finally block
of _execute_task executes the cleanup phase and that cleanup always
removes the unit from the in-flight set and never touches storage; but
because it is invoked with the literal None as the session argument, it
closes no engine session and leaves the session registry untouched.  The
engine session is closed by cleanup only on the stop path, which passes
the STORED session reference: stopping an active task with a stored
session closes exactly that session and removes both the unit and the
session registry entry. -/
theorem C2_amended_cleanup :
    (∀ (outcome : RunOutcome) (st : ManagerState) (tid : String) (agent : Option Nat),
       (execute_task_finalize outcome st tid agent).active_tasks = removeA st.active_tasks tid ∧
       (execute_task_finalize outcome st tid agent).closed_sessions = st.closed_sessions ∧
       (execute_task_finalize outcome st tid agent).browser_sessions = st.browser_sessions ∧
       (execute_task_finalize outcome st tid agent).storage = st.storage) ∧
    (∀ (st : ManagerState) (u tid : String) (now : Nat) (task : Task) (sess : Nat),
       get_task st u tid = some task →
       task.is_active = true →
       lookupA st.browser_sessions tid = some (some sess) →
       ((stop_task st u tid now).1).closed_sessions = st.closed_sessions ++ [sess] ∧
       ((stop_task st u tid now).1).active_tasks = removeA st.active_tasks tid ∧
       ((stop_task st u tid now).1).browser_sessions = removeA st.browser_sessions tid) := by
  constructor
  · intro outcome st tid agent
    cases agent <;> exact ⟨rfl, rfl, rfl, rfl⟩
  · intro st u tid now task sess hget hact hsess
    cases hag : lookupA st.task_agents tid <;>
      simp [stop_task, hget, hact, put_task, cleanup_task_resources, hsess, hag]

/-- C2 amended witness: stopping the running task tr of mixedState, which
has the stored session 7, closes exactly session 7 and removes the unit
and the session entry. -/
theorem C2_amended_cleanup_witness :
    get_task mixedState "u1" "tr" = some runningTask ∧
    runningTask.is_active = true ∧
    lookupA mixedState.browser_sessions "tr" = some (some 7) ∧
    ((stop_task mixedState "u1" "tr" 9).1).closed_sessions = [7] ∧
    ((stop_task mixedState "u1" "tr" 9).1).active_tasks = [] ∧
    ((stop_task mixedState "u1" "tr" 9).1).browser_sessions = [] := by
  have h := C2_amended_cleanup.2 mixedState "u1" "tr" 9 runningTask 7 rfl rfl rfl
  exact ⟨rfl, rfl, rfl, h.1, h.2.1, h.2.2⟩

/-- C6 amended: finished_at is assigned on every entry to a terminal
status — the first terminal entry sets it and each later terminal
set_status overwrites it with the current time — and non-terminal statuses
leave it unchanged. -/
theorem C6_amended_finished_at (t : Task) (s : TaskStatus) (now : Nat) :
    ((s = TaskStatus.FINISHED ∨ s = TaskStatus.FAILED ∨ s = TaskStatus.STOPPED) →
       (t.set_status s now).finished_at = some now) ∧
    (¬ (s = TaskStatus.FINISHED ∨ s = TaskStatus.FAILED ∨ s = TaskStatus.STOPPED) →
       (t.set_status s now).finished_at = t.finished_at) := by
  constructor
  · intro hterm
    have hnr : ¬ (s = TaskStatus.RUNNING ∧ t.started_at = none) := by
      rcases hterm with h | h | h <;> simp [h]
    unfold Task.set_status
    dsimp only
    rw [if_neg hnr, if_pos hterm]
    split <;> rfl
  · intro hnterm
    unfold Task.set_status
    dsimp only
    by_cases h1 : s = TaskStatus.RUNNING ∧ t.started_at = none
    · rw [if_pos h1]
    · rw [if_neg h1, if_neg hnterm]

/-- C6 amended witness: applying the amended law to a concrete first
terminal entry. -/
theorem C6_amended_finished_at_witness :
    (TaskStatus.FINISHED = TaskStatus.FINISHED ∨ TaskStatus.FINISHED = TaskStatus.FAILED ∨
       TaskStatus.FINISHED = TaskStatus.STOPPED) ∧
    (createdTask.set_status TaskStatus.FINISHED 8).finished_at = some 8 :=
  ⟨Or.inl rfl, (C6_amended_finished_at createdTask TaskStatus.FINISHED 8).1 (Or.inl rfl)⟩

/-- C5: admission control at start.  For a stored CREATED task: when the
in-flight count (a single counter over active_tasks, which is keyed by
task id only and never by owner) has reached the ceiling, start fails with
ResourceExhausted and the whole manager state — hence the count and the
task status — is returned unchanged and no unit is registered; below the
ceiling, start registers the unit in active_tasks, sets the task RUNNING
and appends the started Step. -/
theorem C5_admission_control (st : ManagerState) (u tid : String) (now : Nat) (task : Task)
    (hget : get_task st u tid = some task)
    (hcreated : task.status = TaskStatus.CREATED) :
    (st.max_concurrent_tasks ≤ active_count st →
       start_task st u tid now = (st, Except.error ApiErr.resourceExhausted)) ∧
    (active_count st < st.max_concurrent_tasks →
       ∃ t2,
         start_task st u tid now =
           (put_task { st with active_tasks := setA st.active_tasks tid false } u t2,
            Except.ok t2) ∧
         t2.status = TaskStatus.RUNNING ∧
         t2.steps = task.steps ++
           [{ action := "started", description := "Task execution started", error := none }]) := by
  constructor
  · intro hle
    simp only [start_task, hget]
    rw [if_neg (by simp [hcreated]), if_pos hle]
  · intro hlt
    refine ⟨(task.set_status TaskStatus.RUNNING now).add_step "started" "Task execution started" none now, ?_, ?_, ?_⟩
    · simp only [start_task, hget]
      rw [if_neg (by simp [hcreated]), if_neg (by omega)]
    · rw [(Task.add_step_spec _ _ _ _ _).2, Task.set_status_status]
    · rw [(Task.add_step_spec _ _ _ _ _).1, Task.set_status_steps]

/-- Fixture: ceiling 1 with the single slot taken by a unit of owner u2,
while owner u1 tries to start a CREATED task: the counter is global. -/
def fullState : ManagerState :=
  { storage := [("u1", [("tc", createdTask)]), ("u2", [("tr", runningTask)])],
    active_tasks := [("tr", false)],
    browser_sessions := [],
    task_agents := [],
    max_concurrent_tasks := 1 }

/-- C5 witness: with ceiling 1 already taken by another owner, starting
the CREATED task of owner u1 is rejected with ResourceExhausted and the
state is unchanged. -/
theorem C5_admission_control_witness :
    get_task fullState "u1" "tc" = some createdTask ∧
    createdTask.status = TaskStatus.CREATED ∧
    fullState.max_concurrent_tasks ≤ active_count fullState ∧
    start_task fullState "u1" "tc" 3 = (fullState, Except.error ApiErr.resourceExhausted) := by
  refine ⟨rfl, rfl, by decide, ?_⟩
  exact (C5_admission_control fullState "u1" "tc" 3 createdTask rfl rfl).1 (by decide)

/-- The initial scheduler state satisfies the gate invariant. -/
theorem conc_inv_init : ConcInv conc_init := by
  constructor
  · intro _ i
    simp [conc_init]
  · intro i j hi _
    simp [conc_init] at hi

/-- Every scheduler step preserves the gate invariant. -/
theorem conc_inv_step {s s2 : ConcState} (h : ConcStep s s2) (hinv : ConcInv s) : ConcInv s2 := by
  obtain ⟨hfree, huniq⟩ := hinv
  cases h with
  | acquire i hu hs =>
    constructor
    · intro hcontra
      simp at hcontra
    · intro a b ha hb
      simp only [Function.update_apply] at ha hb
      by_cases hai : a = i
      · by_cases hbi : b = i
        · rw [hai, hbi]
        · rw [if_neg hbi] at hb
          exact absurd hb (hfree hs b)
      · rw [if_neg hai] at ha
        exact absurd ha (hfree hs a)
  | release i hu =>
    constructor
    · intro _ j
      simp only [Function.update_apply]
      by_cases hj : j = i
      · rw [if_pos hj]
        simp
      · rw [if_neg hj]
        intro hc
        exact hj (huniq j i hc hu)
    · intro a b ha hb
      simp only [Function.update_apply] at ha hb
      by_cases hai : a = i
      · rw [if_pos hai] at ha
        exact absurd ha (by simp)
      · rw [if_neg hai] at ha
        exact absurd (huniq a i ha hu) hai
  | finish i hu =>
    constructor
    · intro hsf j
      simp only [Function.update_apply]
      by_cases hj : j = i
      · rw [if_pos hj]
        simp
      · rw [if_neg hj]
        exact hfree hsf j
    · intro a b ha hb
      simp only [Function.update_apply] at ha hb
      by_cases hai : a = i
      · rw [if_pos hai] at ha
        exact absurd ha (by simp)
      · rw [if_neg hai] at ha
        by_cases hbi : b = i
        · rw [if_pos hbi] at hb
          exact absurd hb (by simp)
        · rw [if_neg hbi] at hb
          exact huniq a b ha hb

/-- The gate invariant holds in every reachable scheduler state. -/
theorem conc_reachable_inv {s : ConcState} (h : ConcReachable s) : ConcInv s := by
  induction h with
  | refl => exact conc_inv_init
  | tail _ hstep ih => exact conc_inv_step hstep ih

/-- Trace state: unit 0 has acquired the gate and is constructing. -/
def conc_s1 : ConcState :=
  { units := Function.update conc_init.units 0 UnitPhase.constructing, semFree := false }

/-- Trace state: unit 0 released the gate and is running. -/
def conc_s2 : ConcState :=
  { units := Function.update conc_s1.units 0 UnitPhase.running, semFree := true }

/-- Trace state: unit 1 acquired the gate while unit 0 keeps running. -/
def conc_s3 : ConcState :=
  { units := Function.update conc_s2.units 1 UnitPhase.constructing, semFree := false }

/-- Trace state: units 0 and 1 run concurrently, the gate is free. -/
def conc_s4 : ConcState :=
  { units := Function.update conc_s3.units 1 UnitPhase.running, semFree := true }

/-- The overlapping-runs state is reachable by an explicit schedule. -/
theorem conc_s4_reachable : ConcReachable conc_s4 := by
  have h1 : ConcStep conc_init conc_s1 := ConcStep.acquire conc_init 0 rfl rfl
  have h2 : ConcStep conc_s1 conc_s2 :=
    ConcStep.release conc_s1 0 (by simp [conc_s1, Function.update_apply])
  have h3 : ConcStep conc_s2 conc_s3 :=
    ConcStep.acquire conc_s2 1
      (by simp [conc_s2, conc_s1, conc_init, Function.update_apply]) rfl
  have h4 : ConcStep conc_s3 conc_s4 :=
    ConcStep.release conc_s3 1 (by simp [conc_s3, Function.update_apply])
  exact ((((Relation.ReflTransGen.refl).tail h1).tail h2).tail h3).tail h4

/-- C7: engine-session/agent construction is globally serialized by the
single Semaphore(1) gate of src/core/tasks.py lines 38 and 272: in every
state reachable under the interleaving semantics of the gate, at most one
unit is inside its construction phase; and post-construction run phases
may overlap — a reachable state has two units running concurrently. -/
theorem C7_construction_serialized :
    (∀ s, ConcReachable s → ∀ i j,
        s.units i = UnitPhase.constructing → s.units j = UnitPhase.constructing → i = j) ∧
    (∃ s, ConcReachable s ∧ s.units 0 = UnitPhase.running ∧ s.units 1 = UnitPhase.running) := by
  constructor
  · intro s hs i j hi hj
    exact (conc_reachable_inv hs).2 i j hi hj
  · refine ⟨conc_s4, conc_s4_reachable, ?_, ?_⟩ <;>
      simp [conc_s4, conc_s3, conc_s2, conc_s1, conc_init, Function.update_apply]

/-- C7 witness: the mutual-exclusion part applied at the concrete
reachable state where unit 0 holds the gate. -/
theorem C7_construction_serialized_witness :
    ConcReachable conc_s1 ∧ conc_s1.units 0 = UnitPhase.constructing ∧ (0 : Nat) = 0 := by
  have hr : ConcReachable conc_s1 :=
    (Relation.ReflTransGen.refl).tail (ConcStep.acquire conc_init 0 rfl rfl)
  have hu : conc_s1.units 0 = UnitPhase.constructing := by
    simp [conc_s1, Function.update_apply]
  exact ⟨hr, hu, C7_construction_serialized.1 conc_s1 hr 0 0 hu hu⟩

/-- C8: a webhook action receiving any non-success HTTP response, a
webhook action whose transport raises, and a code action whose body
raises, all return the normalized failure ActionResult — failure-message
content with the retain-in-memory flag false — and, being total functions
into ActionResult, never propagate an exception to the caller. -/
theorem C8_extension_failure_normalized (fd : CustomFunctionDef) (status : Nat)
    (content_field : Option String) (text tmsg cmsg : String)
    (hstatus : status ≠ 200) :
    webhook_function fd (HttpOutcome.response status content_field text) =
      { extracted_content := "Webhook error: " ++ toString status ++ " - " ++ text,
        include_in_memory := false } ∧
    webhook_function fd (HttpOutcome.transportError tmsg) =
      { extracted_content := "Function execution failed: " ++ tmsg,
        include_in_memory := false } ∧
    code_function fd (CodeOutcome.raises cmsg) =
      { extracted_content := "Function execution failed: " ++ cmsg,
        include_in_memory := false } := by
  refine ⟨?_, rfl, rfl⟩
  simp [webhook_function, hstatus]

/-- Fixture: a custom function definition with the model defaults. -/
def fdFixture : CustomFunctionDef := {}

/-- C8 witness: the normalization applied at HTTP 500 and at a throwing
code body. -/
theorem C8_extension_failure_normalized_witness :
    (500 : Nat) ≠ 200 ∧
    webhook_function fdFixture (HttpOutcome.response 500 none "Internal Server Error") =
      { extracted_content := "Webhook error: 500 - Internal Server Error",
        include_in_memory := false } ∧
    code_function fdFixture (CodeOutcome.raises "boom") =
      { extracted_content := "Function execution failed: boom",
        include_in_memory := false } := by
  have h := C8_extension_failure_normalized fdFixture 500 none "Internal Server Error" "t" "boom"
    (by decide)
  refine ⟨by decide, ?_, h.2.2⟩
  rw [h.1]
  rfl

/-- C9: with a declared controller configuration and a built controller,
the structured-output step parses a string final result with the JSON
parser: on parse success the parsed object becomes the task result, on
parse failure the raw string is kept unchanged. -/
theorem C9_structured_output (json_loads : String → Option JsonVal) (s : String) :
    (∀ v, json_loads s = some v →
       process_final_result json_loads true true (FinalResult.pyStr s) = FinalResult.pyOther v) ∧
    (json_loads s = none →
       process_final_result json_loads true true (FinalResult.pyStr s) = FinalResult.pyStr s) := by
  constructor
  · intro v hv
    simp [process_final_result, hv]
  · intro hn
    simp [process_final_result, hn]

/-- Fixture: a tiny concrete JSON parser accepting exactly the string 42. -/
def json_loads_fixture : String → Option JsonVal :=
  fun s => if s = "42" then some (JsonVal.num 42) else none

/-- C9 witness: the round trip at a parsable and an unparsable result. -/
theorem C9_structured_output_witness :
    json_loads_fixture "42" = some (JsonVal.num 42) ∧
    process_final_result json_loads_fixture true true (FinalResult.pyStr "42") =
      FinalResult.pyOther (JsonVal.num 42) ∧
    json_loads_fixture "not json" = none ∧
    process_final_result json_loads_fixture true true (FinalResult.pyStr "not json") =
      FinalResult.pyStr "not json" := by
  refine ⟨rfl, ?_, rfl, ?_⟩
  · exact (C9_structured_output json_loads_fixture "42").1 (JsonVal.num 42) rfl
  · exact (C9_structured_output json_loads_fixture "not json").2 rfl

/-- C10: listing with a status filter returns at most page_size tasks,
each of the filtered status, and the filter is applied AFTER slicing the
page out of the insertion-ordered task list; consequently a page can
under-fill while matching tasks exist outside the slice, as the concrete
instance shows: with tasks [CREATED, RUNNING], page 1 of size 1 filtered
by RUNNING is empty although a RUNNING task exists. -/
theorem C10_list_filter_after_slicing :
    (∀ (user_tasks : List Task) (page page_size : Nat) (f : TaskStatus),
       1 ≤ page →
       (manager_list_tasks user_tasks page page_size (some f)).length ≤ page_size ∧
       (∀ t ∈ manager_list_tasks user_tasks page page_size (some f), t.status = f) ∧
       manager_list_tasks user_tasks page page_size (some f) =
         (storage_list_tasks user_tasks page page_size).filter (fun t => t.status = f)) ∧
    (manager_list_tasks [createdTask, runningTask] 1 1 (some TaskStatus.RUNNING) = [] ∧
     runningTask ∈ [createdTask, runningTask] ∧
     runningTask.status = TaskStatus.RUNNING) := by
  constructor
  · intro user_tasks page page_size f _
    refine ⟨?_, ?_, rfl⟩
    · calc (manager_list_tasks user_tasks page page_size (some f)).length
          ≤ (storage_list_tasks user_tasks page page_size).length :=
            List.length_filter_le _ _
        _ ≤ page_size := by
            simp only [storage_list_tasks, List.length_take]
            exact Nat.min_le_left _ _
    · intro t ht
      simp only [manager_list_tasks, List.mem_filter, decide_eq_true_eq] at ht
      exact ht.2
  · exact ⟨rfl, List.Mem.tail _ (List.Mem.head _), rfl⟩

/-- C10 witness: the general part applied at a concrete page request. -/
theorem C10_list_filter_after_slicing_witness :
    (1 : Nat) ≤ 1 ∧
    (manager_list_tasks [createdTask, runningTask] 1 2 (some TaskStatus.RUNNING)).length ≤ 2 := by
  refine ⟨by decide, ?_⟩
  exact ((C10_list_filter_after_slicing.1 [createdTask, runningTask] 1 2 TaskStatus.RUNNING)
    (by decide)).1

end BrowserBridge
